import Mathlib

/- Shallow embedding of the VideoSink client from
   src/include/libvhal/video_sink.h (class VideoSink and class
   VideoSink::Impl).

   The external transport collaborator (IStreamSocketClient) is modelled
   as an oracle: a function giving the result of each transport call, in
   call order.  Each core operation of the Impl is embedded as a pure
   function that returns both the trace of calls it issues to the
   transport and its own return value, so that ordering claims
   ("exactly two writes, header first") become equalities on traces.

   Machine integers: ssize_t is modelled as Int (-1 is the failure
   marker), size_t as Nat.  Bytes on the wire are modelled as List Nat.
   The length header written by SendDataPacket is the native in-memory
   representation of a size_t, i.e. sizeof(size_t) = 8 bytes in the
   platform byte order (little-endian on the x86-64 targets this
   library is built for); it is embedded as a little-endian byte list. -/

/-- IOResult from libvhal_common.h: tuple of ssize_t and std::string.
The first component is the byte count, -1 on failure; the second is the
status message. -/
structure IOResult where
  bytes : Int
  msg   : String
deriving DecidableEq

/-- enum class VideoCodecType, video_sink.h lines 47-51. -/
inductive VideoCodecType
  | kH264
  | kI420
deriving DecidableEq

/-- Underlying integer value of each VideoCodecType enumerator. -/
def VideoCodecType.val : VideoCodecType → Nat
  | .kH264 => 0
  | .kI420 => 1

/-- enum class FrameResolution, video_sink.h lines 57-62. -/
inductive FrameResolution
  | k480p
  | k720p
  | k1080p
deriving DecidableEq

/-- Underlying integer value of each FrameResolution enumerator. -/
def FrameResolution.val : FrameResolution → Nat
  | .k480p => 0
  | .k720p => 1
  | .k1080p => 2

/-- enum class Command, video_sink.h lines 79-84: kOpen = 11,
kClose = 12, kNone = 13. -/
inductive Command
  | kOpen
  | kClose
  | kNone
deriving DecidableEq

/-- Underlying integer value of each Command enumerator. -/
def Command.val : Command → Nat
  | .kOpen => 11
  | .kClose => 12
  | .kNone => 13

/-- enum class VHalVersion, video_sink.h lines 90-94: kV1 = 0 (decode
out of camera vhal), kV2 = 1 (decode in camera vhal). -/
inductive VHalVersion
  | kV1
  | kV2
deriving DecidableEq

/-- Underlying integer value of each VHalVersion enumerator. -/
def VHalVersion.val : VHalVersion → Nat
  | .kV1 => 0
  | .kV2 => 1

/-- Little-endian byte list of a natural number in w bytes: byte k is
(n / 256^k) % 256.  This is the in-memory layout of an unsigned
integer on the little-endian platforms the library targets. -/
def leBytes : Nat → Nat → List Nat
  | 0, _ => []
  | w + 1, n => n % 256 :: leBytes w (n / 256)

/-- Value of a little-endian byte list. -/
def leDecode : List Nat → Nat
  | [] => 0
  | b :: bs => b + 256 * leDecode bs

/-- sizeof(size_t) on the target platform: 8 bytes. -/
def sizeofSize : Nat := 8

/-- The length-header bytes written by SendDataPacket, i.e. the bytes
of the C++ expression Send((uint8_t*)&size, sizeof(size)): the native
in-memory representation of the size_t value. -/
def encodeSize (size : Nat) : List Nat := leBytes sizeofSize size

/-- sizeof(VideoSink::CtrlMessage): version (4-byte enum) + cmd (4-byte
enum) + VideoParams {codec_type 4, resolution 4, reserved 4 x uint32}
= 4 + 4 + 4 + 4 + 16 = 32 bytes, no padding (all members 4-aligned). -/
def sizeofCtrlMessage : Nat := 32

/-- struct VideoSink::CtrlMessage as read out of the received
byte buffer: the raw underlying integer values of version, cmd,
video_params.codec_type and video_params.resolution, plus the 16
reserved bytes. -/
structure CtrlMessage where
  version    : Nat
  cmd        : Nat
  codec_type : Nat
  resolution : Nat
  reserved   : List Nat
deriving DecidableEq

/-- Read the little-endian 32-bit integer at byte offset off. -/
def readU32 (bs : List Nat) (off : Nat) : Nat :=
  leDecode ((bs.drop off).take 4)

/-- Reinterpret the bytes that Recv placed into the ctrl_msg buffer as
a CtrlMessage, exactly as the C++ code does by receiving into
reinterpret_cast<uint8_t*>(&ctrl_msg): field k is the 4-byte value at
its in-struct offset (version 0, cmd 4, codec_type 8, resolution 12,
reserved bytes 16..31). -/
def decodeCtrlMessage (bs : List Nat) : CtrlMessage :=
  { version    := readU32 bs 0
    cmd        := readU32 bs 4
    codec_type := readU32 bs 8
    resolution := readU32 bs 12
    reserved   := (bs.drop 16).take 16 }

/-- In-memory byte image of a CtrlMessage with the given underlying
field values and reserved bytes. -/
def encodeCtrlMessage (v c cd r : Nat) (res : List Nat) : List Nat :=
  leBytes 4 v ++ leBytes 4 c ++ leBytes 4 cd ++ leBytes 4 r ++ res

/-- Calls that SendDataPacket / SendRawPacket issue to the transport:
Send with the given bytes, or Reset. -/
inductive TEvent
  | send (data : List Nat)
  | reset
deriving DecidableEq

/-- VideoSink::Impl::SendDataPacket (video_sink.h lines 313-336).
The transport oracle gives the IOResult of the k-th Send call of this
invocation.  The function returns the trace of transport calls and the
IOResult returned to the caller.  First Send((uint8_t*)&size,
sizeof(size)); if it failed (-1), decorate the message, Reset, return.
Then Send(packet, size); if it failed, decorate, Reset, return.
Otherwise return the payload write's response unchanged. -/
def SendDataPacket (oracle : Nat → IOResult) (packet : List Nat) (size : Nat) :
    List TEvent × IOResult :=
  if (oracle 0).bytes = -1 then
    ([TEvent.send (encodeSize size), TEvent.reset],
     { bytes := (oracle 0).bytes
       msg := "Error in writing payload size to Camera VHal: " ++ (oracle 0).msg })
  else if (oracle 1).bytes = -1 then
    ([TEvent.send (encodeSize size), TEvent.send (packet.take size), TEvent.reset],
     { bytes := (oracle 1).bytes
       msg := "Error in writing payload to Camera VHal: " ++ (oracle 1).msg })
  else
    ([TEvent.send (encodeSize size), TEvent.send (packet.take size)], oracle 1)

/-- VideoSink::Impl::SendRawPacket (video_sink.h lines 338-352): a
single Send(packet, size); on failure decorate the message, Reset and
return; on success return the transport's response unchanged. -/
def SendRawPacket (oracle : Nat → IOResult) (packet : List Nat) (size : Nat) :
    List TEvent × IOResult :=
  if (oracle 0).bytes = -1 then
    ([TEvent.send (packet.take size), TEvent.reset],
     { bytes := (oracle 0).bytes
       msg := "Error in writing payload to Camera VHal: " ++ (oracle 0).msg })
  else
    ([TEvent.send (packet.take size)], oracle 0)

/-- VideoSink::CameraCallback: std::function taking the control
message. -/
def CameraCallback := CtrlMessage → Unit

/-- Outcome of one poll(fds, 1, timeout_ms) call as seen by the reader:
the return value and whether revents has POLLIN set. -/
structure PollInput where
  ret    : Int
  pollin : Bool
deriving DecidableEq

/-- Outcome of one socket_client_->Recv call: the returned byte count
and the bytes placed into the ctrl_msg buffer. -/
structure RecvInput where
  received : Int
  data     : List Nat
deriving DecidableEq

/-- Calls the reader loop body issues: poll, Recv, Reset, or the
invocation of the registered callback with the decoded message. -/
inductive REvent
  | pollCall
  | recvCall
  | resetCall
  | callbackInvoked (m : CtrlMessage)
deriving DecidableEq

/-- Whether a reader event is an invocation of the registered
callback. -/
def isCallbackEvent : REvent → Bool
  | REvent.callbackInvoked _ => true
  | _ => false

/-- How one iteration of the inner do/while loop of the
vhal_talker_thread_ lambda ends (video_sink.h lines 267-296):
fatalError is the uncaught throw of system_error on poll() == -1
(which terminates the process); continueLoop covers both the poll
timeout and a readiness without POLLIN; breakToSupervisor is the
short-read path (Reset then break out to the outer loop);
dispatched is the full-read path with a registered callback;
nullCallbackFault is the full-read path with callback_ still nullptr,
where the code invokes the null std::function (std::bad_function_call). -/
inductive IterOutcome
  | fatalError
  | continueLoop
  | breakToSupervisor
  | dispatched (m : CtrlMessage)
  | nullCallbackFault (m : CtrlMessage)
deriving DecidableEq

/-- One iteration of the inner do/while reader loop, video_sink.h
lines 267-296: poll; on -1 throw; on 0 continue; on POLLIN, Recv
sizeof(CtrlMessage) bytes; if received != sizeof(CtrlMessage) then
Reset and break; else invoke callback_ with the decoded message
(unguarded: a nullptr callback_ is invoked and faults). -/
def readerIteration (cb : Option CameraCallback) (p : PollInput) (r : RecvInput) :
    List REvent × IterOutcome :=
  if p.ret = -1 then
    ([REvent.pollCall], IterOutcome.fatalError)
  else if p.ret = 0 then
    ([REvent.pollCall], IterOutcome.continueLoop)
  else if p.pollin then
    if r.received ≠ (sizeofCtrlMessage : Int) then
      ([REvent.pollCall, REvent.recvCall, REvent.resetCall],
       IterOutcome.breakToSupervisor)
    else
      match cb with
      | none =>
        ([REvent.pollCall, REvent.recvCall],
         IterOutcome.nullCallbackFault (decodeCtrlMessage r.data))
      | some _ =>
        ([REvent.pollCall, REvent.recvCall,
          REvent.callbackInvoked (decodeCtrlMessage r.data)],
         IterOutcome.dispatched (decodeCtrlMessage r.data))
  else
    ([REvent.pollCall], IterOutcome.continueLoop)

/-- The only ways the inner do/while loop ever terminates: break to
the outer supervisor loop (short read), process death (uncaught throw
from poll() == -1), or the null-callback fault. -/
inductive InnerExit
  | toSupervisor
  | processAbort
  | callbackFault
deriving DecidableEq

/-- Fuel-bounded run of the inner do/while loop, starting at input
index i.  Faithful to the source: the loop condition is while(true),
so a continueLoop or dispatched outcome always loops again - the
should_continue_ flag is NOT consulted anywhere inside this loop
(it is only read by the outer while, which this loop never returns to
except through break).  Result none means the loop is still running
after fuel iterations. -/
def innerLoopRun (cb : Option CameraCallback) (inputs : Nat → PollInput × RecvInput) :
    Nat → Nat → Option InnerExit
  | _, 0 => none
  | i, fuel + 1 =>
    match (readerIteration cb (inputs i).1 (inputs i).2).2 with
    | IterOutcome.continueLoop => innerLoopRun cb inputs (i + 1) fuel
    | IterOutcome.dispatched _ => innerLoopRun cb inputs (i + 1) fuel
    | IterOutcome.breakToSupervisor => some InnerExit.toSupervisor
    | IterOutcome.fatalError => some InnerExit.processAbort
    | IterOutcome.nullCallbackFault _ => some InnerExit.callbackFault

/-- Poll outcomes of a connected but idle transport: every poll call
times out (returns 0), no data ever arrives. -/
def allTimeoutInputs : Nat → PollInput × RecvInput :=
  fun _ => ({ ret := 0, pollin := false }, { received := 0, data := [] })

/-- The fixed backoff this_thread::sleep_for(33ms) after a failed
Connect (video_sink.h line 252). -/
def backoff_ms : Nat := 33

/-- The fixed poll timeout, timeout_ms = 1 * 1000 (video_sink.h
line 260). -/
def poll_timeout_ms : Nat := 1000

/-- Steps of the supervisor's connect phase: a Connect attempt, the
fixed backoff sleep after a failure, or the transition into the read
phase after a success. -/
inductive SupEvent
  | connectAttempt
  | backoffSleep (ms : Nat)
  | enterRead
deriving DecidableEq

/-- Fuel-bounded run of the supervisor's connect phase (video_sink.h
lines 245-257), starting at attempt index i: if not connected, call
Connect; on failure log, sleep the fixed backoff and loop; on success
fall through to the read phase.  ok gives the outcome of each Connect
attempt in order.  none means fuel ran out before a success. -/
def connectPhase (ok : Nat → Bool) : Nat → Nat → Option (List SupEvent)
  | _, 0 => none
  | i, fuel + 1 =>
    if ok i then
      some [SupEvent.connectAttempt, SupEvent.enterRead]
    else
      (connectPhase ok (i + 1) fuel).map
        (fun tr => SupEvent.connectAttempt :: SupEvent.backoffSleep backoff_ms :: tr)

/-- The supervisor trace for k failed Connect attempts followed by one
success: k times (attempt, backoff sleep), then the succeeding attempt
and the transition to the read phase. -/
def retryTrace : Nat → List SupEvent
  | 0 => [SupEvent.connectAttempt, SupEvent.enterRead]
  | k + 1 => SupEvent.connectAttempt :: SupEvent.backoffSleep backoff_ms :: retryTrace k

/-- The mutable state of VideoSink::Impl relevant to callback
registration: the callback_ member, default-initialized to nullptr
(video_sink.h line 370), modelled as none. -/
structure ImplState where
  callback_ : Option CameraCallback

/-- The Impl state right after construction: callback_ = nullptr. -/
def initImpl : ImplState := { callback_ := none }

/-- VideoSink::Impl::RegisterCallback (video_sink.h lines 307-311):
unconditionally store the handler and return true. -/
def RegisterCallback (s : ImplState) (cb : CameraCallback) : ImplState × Bool :=
  ({ s with callback_ := some cb }, true)

/-- Length of a little-endian byte list. -/
theorem leBytes_length (w : Nat) : ∀ n, (leBytes w n).length = w := by
  induction w with
  | zero => intro n; rfl
  | succ w ih => intro n; simp [leBytes, ih]

/-- Decoding a little-endian byte list recovers the value modulo
256 to the width. -/
theorem leDecode_leBytes (w : Nat) : ∀ n, leDecode (leBytes w n) = n % 256 ^ w := by
  induction w with
  | zero => intro n; simp [leBytes, leDecode, Nat.mod_one]
  | succ w ih =>
    intro n
    rw [leBytes, leDecode, ih]
    have h : (256 : Nat) ^ (w + 1) = 256 * 256 ^ w := by ring
    rw [h, Nat.mod_mul]

/-- The length header has exactly sizeof(size_t) bytes. -/
theorem encodeSize_length (size : Nat) : (encodeSize size).length = sizeofSize :=
  leBytes_length sizeofSize size

/-- The length header decodes back to the size value for any size_t
value. -/
theorem leDecode_encodeSize (size : Nat) (h : size < 2 ^ 64) :
    leDecode (encodeSize size) = size := by
  have h8 : (256 : Nat) ^ 8 = 2 ^ 64 := by norm_num
  unfold encodeSize sizeofSize
  rw [leDecode_leBytes, h8]
  exact Nat.mod_eq_of_lt h

/-- Taking 16 elements of a 16-element list gives it back. -/
theorem take_sixteen (res : List Nat) (hres : res.length = 16) : res.take 16 = res := by
  rw [← hres]
  exact List.take_length res

/-- Decoding a buffer assembled from four 4-byte fields and 16
reserved bytes reads back exactly those parts. -/
theorem decodeCtrlMessage_parts (A B C D res : List Nat)
    (la : A.length = 4) (lb : B.length = 4) (lc : C.length = 4) (ld : D.length = 4)
    (lres : res.length = 16) :
    decodeCtrlMessage (A ++ (B ++ (C ++ (D ++ res)))) =
      { version := leDecode A, cmd := leDecode B, codec_type := leDecode C,
        resolution := leDecode D, reserved := res } := by
  have d4 : (A ++ (B ++ (C ++ (D ++ res)))).drop 4 = B ++ (C ++ (D ++ res)) :=
    List.drop_left' la
  have d8 : (A ++ (B ++ (C ++ (D ++ res)))).drop 8 = C ++ (D ++ res) := by
    rw [show (8 : Nat) = 4 + 4 from rfl, ← List.drop_drop, d4]
    exact List.drop_left' lb
  have d12 : (A ++ (B ++ (C ++ (D ++ res)))).drop 12 = D ++ res := by
    rw [show (12 : Nat) = 8 + 4 from rfl, ← List.drop_drop, d8]
    exact List.drop_left' lc
  have d16 : (A ++ (B ++ (C ++ (D ++ res)))).drop 16 = res := by
    rw [show (16 : Nat) = 12 + 4 from rfl, ← List.drop_drop, d12]
    exact List.drop_left' ld
  unfold decodeCtrlMessage readU32
  rw [List.drop_zero, d4, d8, d12, d16]
  rw [List.take_left' la, List.take_left' lb, List.take_left' lc, List.take_left' ld]
  rw [take_sixteen res lres]

/-- Decoding the in-memory image of a CtrlMessage recovers its
fields. -/
theorem decodeCtrlMessage_encodeCtrlMessage
    (v c cd rs : Nat) (res : List Nat)
    (hv : v < 2 ^ 32) (hc : c < 2 ^ 32) (hcd : cd < 2 ^ 32) (hrs : rs < 2 ^ 32)
    (hres : res.length = 16) :
    decodeCtrlMessage (encodeCtrlMessage v c cd rs res) =
      { version := v, cmd := c, codec_type := cd, resolution := rs, reserved := res } := by
  have h32 : (256 : Nat) ^ 4 = 2 ^ 32 := by norm_num
  have key := decodeCtrlMessage_parts (leBytes 4 v) (leBytes 4 c) (leBytes 4 cd)
    (leBytes 4 rs) res (leBytes_length 4 v) (leBytes_length 4 c) (leBytes_length 4 cd)
    (leBytes_length 4 rs) hres
  unfold encodeCtrlMessage
  simp only [List.append_assoc]
  rw [key]
  rw [leDecode_leBytes, leDecode_leBytes, leDecode_leBytes, leDecode_leBytes, h32]
  rw [Nat.mod_eq_of_lt hv, Nat.mod_eq_of_lt hc, Nat.mod_eq_of_lt hcd, Nat.mod_eq_of_lt hrs]

/-- Claim C1: for every connected transport and every payload
(packet, size), SendDataPacket issues exactly two transport writes in
order - first a length header of sizeof(size) bytes containing the
value of size in the native width and byte order, then the payload
bytes themselves - and no other writes occur in that call. -/
theorem c1_sendDataPacket_two_ordered_writes
    (oracle : Nat → IOResult) (packet : List Nat) (size : Nat)
    (h0 : (oracle 0).bytes ≠ -1) (h1 : (oracle 1).bytes ≠ -1)
    (hs : size < 2 ^ 64) :
    (SendDataPacket oracle packet size).1 =
      [TEvent.send (encodeSize size), TEvent.send (packet.take size)] ∧
    (encodeSize size).length = sizeofSize ∧
    leDecode (encodeSize size) = size := by
  refine ⟨?_, encodeSize_length size, leDecode_encodeSize size hs⟩
  unfold SendDataPacket
  rw [if_neg h0, if_neg h1]

/-- Claim C1 witness at a concrete transport and payload. -/
theorem c1_sendDataPacket_two_ordered_writes_witness :
    (SendDataPacket (fun _ => { bytes := 3, msg := "" }) [7, 8, 9] 3).1 =
      [TEvent.send (encodeSize 3), TEvent.send (([7, 8, 9] : List Nat).take 3)] ∧
    (encodeSize 3).length = sizeofSize ∧
    leDecode (encodeSize 3) = 3 :=
  c1_sendDataPacket_two_ordered_writes (fun _ => { bytes := 3, msg := "" }) [7, 8, 9] 3
    (by decide) (by decide) (by norm_num)

/-- Claim C6: if the first (length header) write inside SendDataPacket
fails, the call aborts before attempting the payload write (the trace
has no second send), calls Reset on the transport, and returns an
IOResult with bytes -1 and a non-empty message carrying the cause
description in front of the transport's message. -/
theorem c6_first_write_failure_aborts
    (oracle : Nat → IOResult) (packet : List Nat) (size : Nat)
    (h0 : (oracle 0).bytes = -1) :
    SendDataPacket oracle packet size =
      ([TEvent.send (encodeSize size), TEvent.reset],
       { bytes := -1,
         msg := "Error in writing payload size to Camera VHal: " ++ (oracle 0).msg }) ∧
    "Error in writing payload size to Camera VHal: " ++ (oracle 0).msg ≠ "" := by
  constructor
  · unfold SendDataPacket
    rw [if_pos h0, h0]
  · intro hcontra
    have hlen := congrArg String.length hcontra
    rw [String.length_append] at hlen
    have ha : ("Error in writing payload size to Camera VHal: ").length = 46 := rfl
    have hb : ("" : String).length = 0 := rfl
    omega

/-- Claim C6 witness at a concrete failing transport. -/
theorem c6_first_write_failure_aborts_witness :
    SendDataPacket (fun _ => { bytes := -1, msg := "io error" }) [7, 8, 9] 3 =
      ([TEvent.send (encodeSize 3), TEvent.reset],
       { bytes := -1,
         msg := "Error in writing payload size to Camera VHal: " ++ "io error" }) ∧
    "Error in writing payload size to Camera VHal: " ++ "io error" ≠ "" :=
  c6_first_write_failure_aborts (fun _ => { bytes := -1, msg := "io error" }) [7, 8, 9] 3
    (by decide)

/-- Claim C7: if the header write succeeds and the payload write
fails, SendDataPacket returns the second write's IOResult with bytes
-1 and a decorated message; the trace shows the header write was
already issued (delivered, with no rollback event) and the transport
is marked for reset. -/
theorem c7_second_write_failure
    (oracle : Nat → IOResult) (packet : List Nat) (size : Nat)
    (h0 : (oracle 0).bytes ≠ -1) (h1 : (oracle 1).bytes = -1) :
    SendDataPacket oracle packet size =
      ([TEvent.send (encodeSize size), TEvent.send (packet.take size), TEvent.reset],
       { bytes := -1,
         msg := "Error in writing payload to Camera VHal: " ++ (oracle 1).msg }) := by
  unfold SendDataPacket
  rw [if_neg h0, if_pos h1, h1]

/-- Claim C7 witness at a concrete transport failing on the second
write. -/
theorem c7_second_write_failure_witness :
    SendDataPacket
      (fun i => if i = 0 then { bytes := 8, msg := "" } else { bytes := -1, msg := "io error" })
      [7, 8, 9] 3 =
      ([TEvent.send (encodeSize 3), TEvent.send (([7, 8, 9] : List Nat).take 3), TEvent.reset],
       { bytes := -1,
         msg := "Error in writing payload to Camera VHal: " ++ "io error" }) :=
  c7_second_write_failure
    (fun i => if i = 0 then { bytes := 8, msg := "" } else { bytes := -1, msg := "io error" })
    [7, 8, 9] 3 (by decide) (by decide)

/-- Claim C9: when the underlying transport writes succeed (and, per
the transport contract, report an empty message), SendDataPacket and
SendRawPacket both return an IOResult with the empty status message
and the byte count reported by the transport, and issue no extra
transport calls (no internal retry: the trace holds exactly the
framing writes and nothing else). -/
theorem c9_success_returns_transport_count
    (oracle oracle2 : Nat → IOResult) (packet packet2 : List Nat) (size size2 : Nat)
    (h0 : (oracle 0).bytes ≠ -1) (h1 : (oracle 1).bytes ≠ -1) (hm : (oracle 1).msg = "")
    (g0 : (oracle2 0).bytes ≠ -1) (gm : (oracle2 0).msg = "") :
    SendDataPacket oracle packet size =
      ([TEvent.send (encodeSize size), TEvent.send (packet.take size)],
       { bytes := (oracle 1).bytes, msg := "" }) ∧
    SendRawPacket oracle2 packet2 size2 =
      ([TEvent.send (packet2.take size2)],
       { bytes := (oracle2 0).bytes, msg := "" }) := by
  constructor
  · rw [← hm]
    unfold SendDataPacket
    rw [if_neg h0, if_neg h1]
  · rw [← gm]
    unfold SendRawPacket
    rw [if_neg g0]

/-- Claim C9 witness at concrete succeeding transports. -/
theorem c9_success_returns_transport_count_witness :
    SendDataPacket (fun _ => { bytes := 3, msg := "" }) [7, 8, 9] 3 =
      ([TEvent.send (encodeSize 3), TEvent.send (([7, 8, 9] : List Nat).take 3)],
       { bytes := 3, msg := "" }) ∧
    SendRawPacket (fun _ => { bytes := 5, msg := "" }) [1, 2, 3, 4, 5] 5 =
      ([TEvent.send (([1, 2, 3, 4, 5] : List Nat).take 5)],
       { bytes := 5, msg := "" }) :=
  c9_success_returns_transport_count
    (fun _ => { bytes := 3, msg := "" }) (fun _ => { bytes := 5, msg := "" })
    [7, 8, 9] [1, 2, 3, 4, 5] 3 5
    (by decide) (by decide) (by decide) (by decide) (by decide)

/-- Claim C2: whenever the reader's Recv returns exactly
sizeof(CtrlMessage) bytes, the registered callback is invoked exactly
once for that readiness event, synchronously within the same loop
iteration, with a decoded record whose version, command, codec and
resolution fields equal the bytes received. -/
theorem c2_full_read_invokes_callback_once
    (f : CameraCallback) (p : PollInput) (v c cd rs : Nat) (res : List Nat)
    (hp1 : p.ret ≠ -1) (hp0 : p.ret ≠ 0) (hpin : p.pollin = true)
    (hv : v < 2 ^ 32) (hc : c < 2 ^ 32) (hcd : cd < 2 ^ 32) (hrs : rs < 2 ^ 32)
    (hres : res.length = 16) :
    readerIteration (some f) p
      { received := (sizeofCtrlMessage : Int), data := encodeCtrlMessage v c cd rs res } =
      ([REvent.pollCall, REvent.recvCall,
        REvent.callbackInvoked
          { version := v, cmd := c, codec_type := cd, resolution := rs, reserved := res }],
       IterOutcome.dispatched
         { version := v, cmd := c, codec_type := cd, resolution := rs, reserved := res }) ∧
    ([REvent.pollCall, REvent.recvCall,
      REvent.callbackInvoked
        { version := v, cmd := c, codec_type := cd, resolution := rs, reserved := res }].countP
          (fun e => isCallbackEvent e)) = 1 := by
  constructor
  · unfold readerIteration
    rw [if_neg hp1, if_neg hp0, if_pos hpin, if_neg (by simp)]
    rw [decodeCtrlMessage_encodeCtrlMessage v c cd rs res hv hc hcd hrs hres]
  · simp [List.countP_cons, isCallbackEvent]

/-- Claim C2 witness: the spec's concrete control record
{version = kV2 (decode in VHAL), command = kOpen, codec = kH264,
resolution = k720p}. -/
theorem c2_full_read_invokes_callback_once_witness :
    readerIteration (some (fun _ => ())) { ret := 1, pollin := true }
      { received := (sizeofCtrlMessage : Int)
        data := encodeCtrlMessage VHalVersion.kV2.val Command.kOpen.val
          VideoCodecType.kH264.val FrameResolution.k720p.val (List.replicate 16 0) } =
      ([REvent.pollCall, REvent.recvCall,
        REvent.callbackInvoked
          { version := VHalVersion.kV2.val, cmd := Command.kOpen.val
            codec_type := VideoCodecType.kH264.val, resolution := FrameResolution.k720p.val
            reserved := List.replicate 16 0 }],
       IterOutcome.dispatched
         { version := VHalVersion.kV2.val, cmd := Command.kOpen.val
           codec_type := VideoCodecType.kH264.val, resolution := FrameResolution.k720p.val
           reserved := List.replicate 16 0 }) ∧
    ([REvent.pollCall, REvent.recvCall,
      REvent.callbackInvoked
        { version := VHalVersion.kV2.val, cmd := Command.kOpen.val
          codec_type := VideoCodecType.kH264.val, resolution := FrameResolution.k720p.val
          reserved := List.replicate 16 0 }].countP
          (fun e => isCallbackEvent e)) = 1 :=
  c2_full_read_invokes_callback_once (fun _ => ()) { ret := 1, pollin := true }
    VHalVersion.kV2.val Command.kOpen.val VideoCodecType.kH264.val FrameResolution.k720p.val
    (List.replicate 16 0)
    (by decide) (by decide) rfl (by norm_num [VHalVersion.val]) (by norm_num [Command.val])
    (by norm_num [VideoCodecType.val]) (by norm_num [FrameResolution.val]) (by decide)

/-- Claim C3: whenever the reader's Recv returns fewer bytes than
sizeof(CtrlMessage) (including zero), the reader calls Reset on the
transport, does not invoke the registered callback for that event,
does not retry the read (the trace has exactly one Recv), and breaks
out of the read loop back to the supervisor's connect phase. -/
theorem c3_short_read_resets_without_callback
    (cb : Option CameraCallback) (p : PollInput) (r : RecvInput)
    (hp1 : p.ret ≠ -1) (hp0 : p.ret ≠ 0) (hpin : p.pollin = true)
    (hshort : r.received < (sizeofCtrlMessage : Int)) :
    readerIteration cb p r =
      ([REvent.pollCall, REvent.recvCall, REvent.resetCall],
       IterOutcome.breakToSupervisor) := by
  have hne : r.received ≠ (sizeofCtrlMessage : Int) := by omega
  unfold readerIteration
  rw [if_neg hp1, if_neg hp0, if_pos hpin, if_pos hne]

/-- Claim C3 witness: a zero-byte read on a readable descriptor. -/
theorem c3_short_read_resets_without_callback_witness :
    readerIteration (none : Option CameraCallback) { ret := 1, pollin := true }
      { received := 0, data := [] } =
      ([REvent.pollCall, REvent.recvCall, REvent.resetCall],
       IterOutcome.breakToSupervisor) :=
  c3_short_read_resets_without_callback none { ret := 1, pollin := true }
    { received := 0, data := [] } (by decide) (by decide) rfl
    (by norm_num [sizeofCtrlMessage])

/-- Claim C8: if poll itself returns -1, the loop body throws
(uncaught, so the process terminates): the iteration issues no Reset
and no Recv, and the whole inner loop ends in processAbort rather than
ever returning to the supervisor's connect phase. -/
theorem c8_poll_hard_error_is_fatal
    (cb : Option CameraCallback) (p : PollInput) (r : RecvInput)
    (hp : p.ret = -1) :
    readerIteration cb p r = ([REvent.pollCall], IterOutcome.fatalError) ∧
    (∀ (inputs : Nat → PollInput × RecvInput) (i fuel : Nat),
        (inputs i).1 = p →
        innerLoopRun cb inputs i (fuel + 1) = some InnerExit.processAbort) := by
  constructor
  · unfold readerIteration
    rw [if_pos hp]
  · intro inputs i fuel hip
    have hstep : readerIteration cb (inputs i).1 (inputs i).2 =
        ([REvent.pollCall], IterOutcome.fatalError) := by
      unfold readerIteration
      rw [hip, if_pos hp]
    unfold innerLoopRun
    rw [hstep]

/-- Claim C8 witness: a concrete poll hard error. -/
theorem c8_poll_hard_error_is_fatal_witness :
    readerIteration (none : Option CameraCallback) { ret := -1, pollin := false }
      { received := 0, data := [] } = ([REvent.pollCall], IterOutcome.fatalError) ∧
    innerLoopRun (none : Option CameraCallback)
      (fun _ => ({ ret := -1, pollin := false }, { received := 0, data := [] })) 0 1 =
      some InnerExit.processAbort :=
  ⟨(c8_poll_hard_error_is_fatal none { ret := -1, pollin := false }
      { received := 0, data := [] } rfl).1,
   (c8_poll_hard_error_is_fatal none { ret := -1, pollin := false }
      { received := 0, data := [] } rfl).2
     (fun _ => ({ ret := -1, pollin := false }, { received := 0, data := [] })) 0 0 rfl⟩

/-- Claim C10: the dispatch of a fully read control record is
unguarded against a missing handler: callback_ defaults to nullptr at
construction, RegisterCallback unconditionally stores the handler and
returns true, and a full read arriving before any RegisterCallback
call invokes the null handler (a fault) instead of skipping
dispatch. -/
theorem c10_unguarded_null_dispatch :
    initImpl.callback_ = none ∧
    (∀ (s : ImplState) (cb : CameraCallback),
        (RegisterCallback s cb).2 = true ∧
        (RegisterCallback s cb).1.callback_ = some cb) ∧
    (∀ (p : PollInput) (r : RecvInput),
        p.ret ≠ -1 → p.ret ≠ 0 → p.pollin = true →
        r.received = (sizeofCtrlMessage : Int) →
        readerIteration none p r =
          ([REvent.pollCall, REvent.recvCall],
           IterOutcome.nullCallbackFault (decodeCtrlMessage r.data))) := by
  refine ⟨rfl, fun s cb => ⟨rfl, rfl⟩, ?_⟩
  intro p r hp1 hp0 hpin hrecv
  unfold readerIteration
  rw [if_neg hp1, if_neg hp0, if_pos hpin, if_neg (by rw [hrecv]; simp)]

/-- Claim C10 witness: a full read before registration faults on the
null handler, at the concrete record of the spec. -/
theorem c10_unguarded_null_dispatch_witness :
    initImpl.callback_ = none ∧
    (RegisterCallback initImpl (fun _ => ())).2 = true ∧
    (RegisterCallback initImpl (fun _ => ())).1.callback_ = some (fun _ => ()) ∧
    readerIteration none { ret := 1, pollin := true }
      { received := (sizeofCtrlMessage : Int)
        data := encodeCtrlMessage 1 11 0 1 (List.replicate 16 0) } =
      ([REvent.pollCall, REvent.recvCall],
       IterOutcome.nullCallbackFault
         (decodeCtrlMessage (encodeCtrlMessage 1 11 0 1 (List.replicate 16 0)))) :=
  ⟨c10_unguarded_null_dispatch.1,
   (c10_unguarded_null_dispatch.2.1 initImpl (fun _ => ())).1,
   (c10_unguarded_null_dispatch.2.1 initImpl (fun _ => ())).2,
   c10_unguarded_null_dispatch.2.2 { ret := 1, pollin := true }
     { received := (sizeofCtrlMessage : Int)
       data := encodeCtrlMessage 1 11 0 1 (List.replicate 16 0) }
     (by decide) (by decide) rfl rfl⟩

/-- Claim C4 (refuting theorem): with the transport connected and every
poll timing out (a connected but idle VHAL), the inner do/while loop of
the reader never exits, for any number of iterations.  The loop is
while(true) and consults no stop flag, so once the thread is inside the
readiness wait of a connected transport, setting should_continue_ in
the destructor is never observed: the join in ~Impl blocks forever
rather than completing within one poll timeout plus one backoff. -/
theorem c4_inner_loop_never_observes_stop :
    ∀ (cb : Option CameraCallback) (i fuel : Nat),
      innerLoopRun cb allTimeoutInputs i fuel = none := by
  intro cb i fuel
  induction fuel generalizing i with
  | zero => rfl
  | succ fuel ih =>
    have hstep : readerIteration cb (allTimeoutInputs i).1 (allTimeoutInputs i).2 =
        ([REvent.pollCall], IterOutcome.continueLoop) := rfl
    unfold innerLoopRun
    rw [hstep]
    exact ih (i + 1)

/-- The supervisor trace for k failures then success contains exactly
k + 1 Connect attempts. -/
theorem retryTrace_count_attempt (k : Nat) :
    (retryTrace k).count SupEvent.connectAttempt = k + 1 := by
  induction k with
  | zero => rfl
  | succ k ih => simp [retryTrace, List.count_cons, ih]

/-- The supervisor trace for k failures then success enters the read
phase exactly once. -/
theorem retryTrace_count_enterRead (k : Nat) :
    (retryTrace k).count SupEvent.enterRead = 1 := by
  induction k with
  | zero => rfl
  | succ k ih => simp [retryTrace, List.count_cons, ih]

/-- The read phase is the last step of the supervisor trace: it is
entered only after the succeeding attempt. -/
theorem retryTrace_getLast (k : Nat) :
    (retryTrace k).getLast? = some SupEvent.enterRead := by
  induction k with
  | zero => rfl
  | succ k ih =>
    have hcons : ∃ y l, retryTrace k = y :: l := by
      cases k with
      | zero => exact ⟨_, _, rfl⟩
      | succ m => exact ⟨_, _, rfl⟩
    obtain ⟨y, l, he⟩ := hcons
    rw [retryTrace, List.getLast?_cons_cons, he, List.getLast?_cons_cons, ← he, ih]

/-- If Connect fails for the first k attempts starting at index j and
succeeds at attempt j + k, the connect phase with k + 1 units of fuel
produces exactly the k-failure trace. -/
theorem connectPhase_of_failures (ok : Nat → Bool) :
    ∀ k j, (∀ i, i < k → ok (j + i) = false) → ok (j + k) = true →
      connectPhase ok j (k + 1) = some (retryTrace k) := by
  intro k
  induction k with
  | zero =>
    intro j _ hk
    rw [Nat.add_zero] at hk
    unfold connectPhase
    rw [if_pos hk]
    rfl
  | succ k ih =>
    intro j hfail hk
    have h0 : ok j = false := by
      have h := hfail 0 (Nat.succ_pos k)
      rwa [Nat.add_zero] at h
    unfold connectPhase
    rw [if_neg (by simp [h0])]
    have hrec := ih (j + 1)
      (fun i hi => by
        have h := hfail (i + 1) (by omega)
        rwa [show j + (i + 1) = j + 1 + i from by omega] at h)
      (by rwa [show j + (k + 1) = j + 1 + k from by omega] at hk)
    rw [hrec]
    rfl

/-- Claim C5: for every k, given a transport whose Connect fails k
times and then succeeds, the supervisor issues exactly k + 1 connect
attempts with the fixed backoff sleep after each failure, never caps
the retry count (the statement holds for every k), and enters the read
phase only after the succeeding attempt (the read-phase transition is
the final step of the trace and occurs exactly once). -/
theorem c5_supervisor_connect_retries (k : Nat) :
    connectPhase (fun i => decide (k ≤ i)) 0 (k + 1) = some (retryTrace k) ∧
    (retryTrace k).count SupEvent.connectAttempt = k + 1 ∧
    (retryTrace k).count SupEvent.enterRead = 1 ∧
    (retryTrace k).getLast? = some SupEvent.enterRead := by
  refine ⟨?_, retryTrace_count_attempt k, retryTrace_count_enterRead k, retryTrace_getLast k⟩
  apply connectPhase_of_failures
  · intro i hi
    simp only [Nat.zero_add, decide_eq_false_iff_not]
    omega
  · simp only [Nat.zero_add, decide_eq_true_eq]
    exact Nat.le_refl k
